import Mathlib

set_option autoImplicit false

namespace Loan

attribute [local semireducible] Rat.add Rat.sub Rat.mul Rat.inv

/-! # Shallow embedding of the loan-approval system's core logic

Embeds `src/ec2/ml-api-ec2.py` (rule fallback, batch scoring, result
cache / serving façade) and the normalizer of
`src/lambdas/lambda-loan-processor.py`.

Python values flowing through the pipeline (parsed JSON) are modelled by
the `Json` tagged union.  Python floats are modelled by `Rat`: the
source only compares decimal literals and computes exact fractions, and
every literal it mentions is written here with `mkRat` (`0.4` is
`mkRat 4 10`, and so on) so that all definitions evaluate by kernel
reduction.  A Python statement that can raise is modelled by an
`Option`-valued function, `none` standing for the raised exception. -/

/-- A JSON-like value: the tagged union modelling Python values parsed
from request bodies and S3 documents. -/
inductive Json where
  | null : Json
  | bool (b : Bool) : Json
  | num (q : Rat) : Json
  | str (s : String) : Json
  | arr (xs : List Json) : Json
  | obj (fields : List (String × Json)) : Json

/-- Python `j == "s"` for a string literal `"s"`: true exactly when `j` is
that string (comparison between values of distinct types is `False` in
Python, never an error). -/
def jsonEqStr (j : Json) (s : String) : Bool :=
  match j with
  | .str t => t == s
  | _ => false

/-- Whether a JSON value is Python `None`. -/
def isNull : Json → Bool
  | .null => true
  | _ => false

/-- Whether a JSON value is an object (a Python dict). -/
def isObj : Json → Bool
  | .obj _ => true
  | _ => false

/-- First-match lookup in an object's field list (Python dict indexing;
parsed JSON dicts have unique keys).  `none` models `KeyError`. -/
def dictFind (fs : List (String × Json)) (k : String) : Option Json :=
  (fs.find? (fun p => p.1 == k)).map (fun p => p.2)

/-- Python `d.get(k, default)` on a dict. -/
def dictGetD (fs : List (String × Json)) (k : String) (d : Json) : Json :=
  (dictFind fs k).getD d

/-- Python truthiness of a JSON value (`if x:`). -/
def truthy : Json → Bool
  | .null => false
  | .bool b => b
  | .num q => q != 0
  | .str s => s != ""
  | .arr xs => !xs.isEmpty
  | .obj fs => !fs.isEmpty

/-- Numeric view used by Python arithmetic comparisons: numbers are
themselves, `bool` is an `int` subtype (`True == 1`, `False == 0`), and
every other operand raises `TypeError` (modelled as `none`). -/
def toPyNum : Json → Option Rat
  | .num q => some q
  | .bool b => some (if b then 1 else 0)
  | _ => none

/-- Python `v > q` against a numeric literal; `none` models `TypeError`. -/
def jsonGt (v : Json) (q : Rat) : Option Bool :=
  (toPyNum v).map (fun x => decide (x > q))

/-- Python `v < q` against a numeric literal; `none` models `TypeError`. -/
def jsonLt (v : Json) (q : Rat) : Option Bool :=
  (toPyNum v).map (fun x => decide (x < q))

/-! ## Rule-based fallback (`predict_rule_based`, ml-api-ec2.py lines 42-62) -/

/-- Rules 3 and 4 of the cascade (`loan_amnt > 35000 and person_income <
40000` → REJECTED 0.70, otherwise APPROVED 0.65), with Python's
short-circuit `and`. -/
def rule_three_four (amt inc : Json) : Option (String × Rat) :=
  match jsonGt amt 35000 with
  | none => none
  | some true =>
    match jsonLt inc 40000 with
    | none => none
    | some true => some ("REJECTED", mkRat 70 100)
    | some false => some ("APPROVED", mkRat 65 100)
  | some false => some ("APPROVED", mkRat 65 100)

/-- `predict_rule_based(record)` on a Python dict `fs`, including the
`record.get` defaults and Python's short-circuit evaluation of the rule
conditions; `none` models a `TypeError` raised by a comparison against a
non-numeric field value. -/
def predict_rule_based (fs : List (String × Json)) : Option (String × Rat) :=
  let lpi := dictGetD fs "loan_percent_income" (Json.num 0)
  let inc := dictGetD fs "person_income" (Json.num 0)
  let amt := dictGetD fs "loan_amnt" (Json.num 0)
  let prev := dictGetD fs "previous_loan_defaults_on_file" (Json.str "No")
  if jsonEqStr prev "Yes" then some ("REJECTED", mkRat 75 100)
  else
    match jsonGt lpi (mkRat 4 10) with
    | none => none
    | some true => some ("REJECTED", mkRat 75 100)
    | some false =>
      match jsonLt lpi (mkRat 2 10) with
      | none => none
      | some true =>
        match jsonGt inc 50000 with
        | none => none
        | some true => some ("APPROVED", mkRat 80 100)
        | some false => rule_three_four amt inc
      | some false => rule_three_four amt inc

/-- `predict_rule_based` applied to an arbitrary JSON record: a non-dict
record raises `AttributeError` on `record.get`. -/
def predict_rule_based_json (rec : Json) : Option (String × Rat) :=
  match rec with
  | .obj fs => predict_rule_based fs
  | _ => none

/-! ## Batch scoring (`predict_batch`, ml-api-ec2.py lines 65-149) -/

/-- `feature_cols` (ml-api-ec2.py lines 89-93), in source order. -/
def feature_cols : List String :=
  ["person_age", "person_income", "person_emp_exp", "loan_amnt",
   "loan_int_rate", "loan_percent_income", "cb_person_cred_hist_length",
   "person_gender", "employment_type", "person_home_ownership",
   "loan_intent", "account_type", "person_education",
   "previous_loan_defaults_on_file"]

/-- The externally supplied classifier capability: given the 14 feature
values (in `feature_cols` order) it returns the predicted class and the
probability reported for that class, or `none` when `predict` /
`predict_proba` raises. -/
def Clf : Type := List Json → Option (Nat × Rat)

/-- The ML branch of the per-record try (ml-api-ec2.py lines 86-102):
build the one-row frame, select `feature_cols` (a `KeyError` — `none` —
when the record is not a dict containing every feature), invoke the
classifier, and read class 1 as APPROVED, any other class as REJECTED.
`none` models the `except` that falls back to the rules. -/
def ml_predict (f : Clf) (rec : Json) : Option (String × Rat) :=
  match rec with
  | .obj fs =>
    match feature_cols.mapM (fun k => dictFind fs k) with
    | none => none
    | some xs =>
      match f xs with
      | none => none
      | some (cls, conf) =>
        some ((if cls == 1 then "APPROVED" else "REJECTED"), conf)
  | _ => none

/-- One record's decision (ml-api-ec2.py lines 85-107): the ML path when
a classifier is loaded, falling back to `predict_rule_based` when that
path raises; the rule path directly when no classifier is loaded.
`none` models an exception escaping to the outer per-record handler. -/
def decide_record (clf : Option Clf) (rec : Json) : Option (String × Rat) :=
  match clf with
  | some f =>
    match ml_predict f rec with
    | some d => some d
    | none => predict_rule_based_json rec
  | none => predict_rule_based_json rec

/-- One entry of the `predictions` list (ml-api-ec2.py lines 114-123). -/
structure PredOut where
  application_id : Json
  person_age : Json
  person_income : Json
  loan_amnt : Json
  loan_percent_income : Json
  decision : String
  confidence : Rat
  timestamp : String

/-- Building the appended prediction dict (ml-api-ec2.py lines 114-123);
raises (`none`) when the record is not a dict (`record.get`). -/
def append_entry (rec : Json) (dec : String) (conf : Rat) (nowIso : String) :
    Option PredOut :=
  match rec with
  | .obj fs =>
    some { application_id := dictGetD fs "application_id" (Json.str "N/A")
           person_age := dictGetD fs "person_age" (Json.num 0)
           person_income := dictGetD fs "person_income" (Json.num 0)
           loan_amnt := dictGetD fs "loan_amnt" (Json.num 0)
           loan_percent_income := dictGetD fs "loan_percent_income" (Json.num 0)
           decision := dec
           confidence := conf
           timestamp := nowIso }
  | _ => none

/-- The per-record loop of `predict_batch` (ml-api-ec2.py lines 83-127),
returning `(predictions, approved_count, rejected_count)`.  A record
whose decision raises is skipped before counting; a record whose append
raises is skipped after counting (the source increments the counters
before `predictions.append`). -/
def predict_batch_loop (clf : Option Clf) (nowIso : String) :
    List Json → List PredOut × Nat × Nat
  | [] => ([], 0, 0)
  | rec :: rest =>
    match decide_record clf rec with
    | none => predict_batch_loop clf nowIso rest
    | some (dec, conf) =>
      let acc := predict_batch_loop clf nowIso rest
      let counts : Nat × Nat :=
        if dec == "APPROVED" then (acc.2.1 + 1, acc.2.2)
        else (acc.2.1, acc.2.2 + 1)
      match append_entry rec dec conf nowIso with
      | some p => (p :: acc.1, counts)
      | none => (acc.1, counts)

/-- Python `round(x, 2)` on an exact rational: round half to even at the
second decimal place. -/
def pyRound2 (q : Rat) : Rat :=
  let s : Rat := q * 100
  let f : Int := Int.ediv s.num s.den
  let n : Int :=
    if s - mkRat f 1 < mkRat 1 2 then f
    else if s - mkRat f 1 > mkRat 1 2 then f + 1
    else if f % 2 = 0 then f else f + 1
  mkRat n 100

/-- The `stats` dict of a batch response (ml-api-ec2.py lines 129-134). -/
structure BatchStats where
  total_applications : Nat
  approved_count : Nat
  rejected_count : Nat
  approval_rate : Rat

/-- A batch response body (ml-api-ec2.py lines 139-143). -/
structure BatchResult where
  predictions : List PredOut
  stats : BatchStats
  method : String

/-- The HTTP responses `predict_batch` can produce: a 200 success body, a
400 client error (lines 71-72), or the 500 of the outer handler (line
149, never produced by the embedded total body). -/
inductive ApiResponse where
  | success (b : BatchResult)
  | clientError (code : Nat) (msg : String)
  | serverError (msg : String)

/-- `predict_batch` (ml-api-ec2.py lines 65-149) on an already-parsed
record list (`data.get('records', [])`; an absent or `null` `records`
value yields `[]`).  `use_model` is decided once, before the loop. -/
def predict_batch (clf : Option Clf) (nowIso : String) (records : List Json) :
    ApiResponse :=
  if records.isEmpty then .clientError 400 "No records provided"
  else
    let r := predict_batch_loop clf nowIso records
    .success
      { predictions := r.1
        stats :=
          { total_applications := r.1.length
            approved_count := r.2.1
            rejected_count := r.2.2
            approval_rate :=
              if r.1.isEmpty then 0
              else pyRound2 (mkRat r.2.1 r.1.length * 100) }
        method := if clf.isSome then "ml_model" else "rule_based" }

/-! ## Result cache and serving façade
(`get_cached_data` / `load_predictions_fast`, ml-api-ec2.py lines 152-216) -/

/-- The process-wide `CACHE` dict (ml-api-ec2.py lines 22-26). -/
structure CacheState where
  data : Option Json
  timestamp : Option Rat
  ttl : Rat

/-- `get_cached_data` (lines 152-160): `None` when either slot is unset
or the entry has aged past the TTL, the stored data otherwise. -/
def get_cached_data (c : CacheState) (now : Rat) : Option Json :=
  match c.data, c.timestamp with
  | some d, some t => if now - t < c.ttl then some d else none
  | _, _ => none

/-- The head of `load_predictions_fast` (lines 164-167): `cached =
get_cached_data(); if cached: return cached` — note the truthiness test,
a falsy cached value is not served. -/
def cache_serve (c : CacheState) (now : Rat) : Option Json :=
  match get_cached_data c now with
  | some d => if truthy d then some d else none
  | none => none

/-- Python `needle in hay` for strings (substring test). -/
def strContains (hay needle : String) : Bool :=
  decide (2 ≤ (hay.splitOn needle).length)

/-- Python `'predictions' in data` (line 182): key test on a dict,
membership on a list, substring test on a string, `TypeError` (`none`)
otherwise. -/
def has_predictions_key : Json → Option Bool
  | .obj fs => some (fs.any (fun p => p.1 == "predictions"))
  | .arr xs => some (xs.any (fun x => jsonEqStr x "predictions"))
  | .str s => some (strContains s "predictions")
  | _ => none

/-- Python iteration `for p in v`: the elements of a list, the one-char
strings of a string, the keys of a dict; `TypeError` (`none`) otherwise. -/
def iter_elems : Json → Option (List Json)
  | .arr xs => some xs
  | .str s => some (s.toList.map (fun c => Json.str (String.singleton c)))
  | .obj fs => some (fs.map (fun p => Json.str p.1))
  | _ => none

/-- `p['decision']` (lines 183-184): dict lookup; `none` models the
`KeyError` / `TypeError` of a missing key or non-dict entry. -/
def get_decision (p : Json) : Option Json :=
  match p with
  | .obj fs => dictFind fs "decision"
  | _ => none

/-- The comprehension filter `p['decision'] == s`. -/
def decision_is (p : Json) (s : String) : Bool :=
  match get_decision p with
  | some d => jsonEqStr d s
  | none => false

/-- The two capped comprehensions of lines 183-184: the first 20 entries
with decision APPROVED followed by the first 20 with decision REJECTED;
`none` when some entry's `p['decision']` raises. -/
def cap_decisions (ps : List Json) : Option (List Json) :=
  if ps.all (fun p => (get_decision p).isSome) then
    some ((ps.filter (fun p => decision_is p "APPROVED")).take 20
      ++ (ps.filter (fun p => decision_is p "REJECTED")).take 20)
  else none

/-- `data.get('stats', {}).get(k, 0)` (lines 188-191); `none` models the
`AttributeError` when the `stats` value is not a dict. -/
def stats_get (fs : List (String × Json)) (k : String) : Option Json :=
  match dictGetD fs "stats" (Json.obj []) with
  | .obj sfs => some (dictGetD sfs k (Json.num 0))
  | _ => none

/-- The per-attempt body of lines 182-196: the reshaped, capped bundle
when the fetched document has a `predictions` key, the document itself
otherwise; `none` models any exception raised while reshaping. -/
def compute_result (data : Json) (nowIso date : String) : Option Json :=
  match has_predictions_key data with
  | none => none
  | some false => some data
  | some true =>
    match data with
    | .obj fs =>
      match dictFind fs "predictions" with
      | none => none
      | some pv =>
        match iter_elems pv with
        | none => none
        | some ps =>
          match cap_decisions ps with
          | none => none
          | some capped =>
            match stats_get fs "total_applications", stats_get fs "approved_count",
                stats_get fs "rejected_count", stats_get fs "approval_rate" with
            | some ta, some ac, some rc, some ar =>
              some (Json.obj
                [("predictions", Json.arr capped),
                 ("total_applications", ta),
                 ("approved_count", ac),
                 ("rejected_count", rc),
                 ("approval_rate", ar),
                 ("timestamp", Json.str nowIso),
                 ("date", Json.str date)])
            | _, _, _, _ => none
    | _ => none

/-- The empty bundle of lines 209-216, returned when every lookback
attempt failed. -/
def empty_bundle (nowIso : String) : Json :=
  Json.obj
    [("predictions", Json.arr []),
     ("total_applications", Json.num 0),
     ("approved_count", Json.num 0),
     ("rejected_count", Json.num 0),
     ("approval_rate", Json.num 0),
     ("timestamp", Json.str nowIso)]

/-- Outcome of a `load_predictions_fast` call: the returned JSON, the
`CACHE` state afterwards, and how many S3 fetch attempts were made. -/
structure LPFResult where
  result : Json
  cache : CacheState
  fetches : Nat

/-- The lookback loop of lines 171-216 over the remaining date
partitions.  `store d` is the S3 fetch+decode+parse for partition `d`
(`none` models not-found / network error / unparseable content).  On a
computed result the cache is written first; the subsequent
`len(result.get(...))` log line raises for a non-dict result, which the
loop's `except` turns into one more back-dating step — hence the
`isObj` test after the cache write. -/
def try_days (store : String → Option Json) (now : Rat) (nowIso : String) :
    List String → CacheState → Nat → LPFResult
  | [], c, n => ⟨empty_bundle nowIso, c, n⟩
  | d :: rest, c, n =>
    match store d with
    | none => try_days store now nowIso rest c (n + 1)
    | some data =>
      match compute_result data nowIso d with
      | none => try_days store now nowIso rest c (n + 1)
      | some r =>
        if isObj r then ⟨r, ⟨some r, some now, c.ttl⟩, n + 1⟩
        else try_days store now nowIso rest ⟨some r, some now, c.ttl⟩ (n + 1)

/-- `load_predictions_fast` (lines 163-216): serve a truthy fresh cache
entry without touching S3, otherwise run the two-day lookback
(`for days_ago in range(2)` gives today then yesterday). -/
def load_predictions_fast (store : String → Option Json)
    (today yesterday : String) (now : Rat) (nowIso : String)
    (c : CacheState) : LPFResult :=
  match cache_serve c now with
  | some d => ⟨d, c, 0⟩
  | none => try_days store now nowIso [today, yesterday] c 0

/-! ## Normalizer (`process_loan_applications`,
lambda-loan-processor.py lines 78-127) -/

/-- Value of a nonempty all-digit run. -/
def digitsVal (cs : List Char) : Nat :=
  cs.foldl (fun n c => n * 10 + (c.toNat - 48)) 0

/-- Parse a nonempty run of decimal digits. -/
def parseDigits (cs : List Char) : Option Nat :=
  if !cs.isEmpty && cs.all Char.isDigit then some (digitsVal cs) else none

/-- Strip leading and trailing whitespace (the stripping `int()` /
`float()` apply to string arguments). -/
def py_strip (cs : List Char) : List Char :=
  ((cs.dropWhile Char.isWhitespace).reverse.dropWhile Char.isWhitespace).reverse

/-- Python `int(s)` on plain decimal integer literals (surrounding
whitespace and a sign allowed); anything else is treated as raising
`ValueError` (`none`). -/
def py_parse_int (s : String) : Option Int :=
  match py_strip s.toList with
  | '-' :: rest => (parseDigits rest).map (fun n => -(n : Int))
  | '+' :: rest => (parseDigits rest).map (fun n => (n : Int))
  | t => (parseDigits t).map (fun n => (n : Int))

/-- Unsigned decimal literal with an optional fractional part
(`"12"`, `"12.5"`, `".5"`, `"12."`). -/
def py_parse_ufloat (cs : List Char) : Option Rat :=
  match cs.splitOn '.' with
  | [ip] => (parseDigits ip).map (fun n => mkRat n 1)
  | [ip, fp] =>
    if (!ip.isEmpty || !fp.isEmpty) && ip.all Char.isDigit && fp.all Char.isDigit
    then some (mkRat (digitsVal ip) 1 + mkRat (digitsVal fp) (10 ^ fp.length))
    else none
  | _ => none

/-- Python `float(s)` on plain decimal literals (surrounding whitespace
and a sign allowed); other forms are treated as raising `ValueError`
(`none`). -/
def py_parse_float (s : String) : Option Rat :=
  match py_strip s.toList with
  | '-' :: rest => (py_parse_ufloat rest).map (fun q => -q)
  | '+' :: rest => py_parse_ufloat rest
  | t => py_parse_ufloat t

/-- Python `float(value)`: numbers pass through, `bool` maps to 0/1,
strings are parsed, everything else raises (`none`). -/
def py_float : Json → Option Rat
  | .num q => some q
  | .bool b => some (if b then mkRat 1 1 else 0)
  | .str s => py_parse_float s
  | _ => none

/-- Truncation toward zero, as Python `int()` applied to a float. -/
def rat_trunc (q : Rat) : Int :=
  if q < 0 then -(Int.ediv (-q).num (-q).den) else Int.ediv q.num q.den

/-- Python `int(value)`: floats truncate toward zero, `bool` maps to
0/1, integer-literal strings are parsed, everything else raises
(`none`). -/
def py_int : Json → Option Int
  | .num q => some (rat_trunc q)
  | .bool b => some (if b then 1 else 0)
  | .str s => py_parse_int s
  | _ => none

/-- `safe_float` (lambda-loan-processor.py lines 84-88): `None`, `""`
and `"null"` become 0.0 outright, and any `float(value)` failure is
swallowed into 0.0. -/
def safe_float (v : Json) : Rat :=
  if isNull v || jsonEqStr v "" || jsonEqStr v "null" then 0
  else (py_float v).getD 0

/-- `safe_int` (lambda-loan-processor.py lines 90-94). -/
def safe_int (v : Json) : Int :=
  if isNull v || jsonEqStr v "" || jsonEqStr v "null" then 0
  else (py_int v).getD 0

/-- A canonical record (the dict built at lambda-loan-processor.py lines
99-117): the seven numeric fields are genuinely numeric after
`safe_int` / `safe_float`; the remaining fields hold whatever value was
present (defaulted only when absent), hence stay `Json`. -/
structure CanonicalRecord where
  person_age : Int
  person_income : Rat
  person_emp_exp : Int
  loan_amnt : Rat
  loan_int_rate : Rat
  loan_percent_income : Rat
  cb_person_cred_hist_length : Int
  person_gender : Json
  employment_type : Json
  person_home_ownership : Json
  loan_intent : Json
  account_type : Json
  person_education : Json
  previous_loan_defaults_on_file : Json
  application_id : Json
  timestamp : Json

/-- The normalization of one raw application (lambda-loan-processor.py
lines 99-117); `now` is the normalization-time ISO timestamp. -/
def normalize (now : String) (app : List (String × Json)) : CanonicalRecord :=
  { person_age := safe_int (dictGetD app "person_age" (Json.num 0))
    person_income := safe_float (dictGetD app "person_income" (Json.num 0))
    person_emp_exp := safe_int (dictGetD app "person_emp_exp" (Json.num 0))
    loan_amnt := safe_float (dictGetD app "loan_amnt" (Json.num 0))
    loan_int_rate := safe_float (dictGetD app "loan_int_rate" (Json.num 0))
    loan_percent_income := safe_float (dictGetD app "loan_percent_income" (Json.num 0))
    cb_person_cred_hist_length := safe_int (dictGetD app "cb_person_cred_hist_length" (Json.num 0))
    person_gender := dictGetD app "person_gender" (Json.str "Unknown")
    employment_type := dictGetD app "employment_type" (Json.str "Unknown")
    person_home_ownership := dictGetD app "person_home_ownership" (Json.str "Unknown")
    loan_intent := dictGetD app "loan_intent" (Json.str "Unknown")
    account_type := dictGetD app "account_type" (Json.str "Unknown")
    person_education := dictGetD app "person_education" (Json.str "High School")
    previous_loan_defaults_on_file := dictGetD app "previous_loan_defaults_on_file" (Json.str "No")
    application_id := dictGetD app "application_id" (Json.str "")
    timestamp := dictGetD app "timestamp" (Json.str now) }

/-- A canonical record rendered back as the JSON dict the predictor
lambda posts to `/predict-batch` (field order as in the source dict). -/
def toRaw (cr : CanonicalRecord) : List (String × Json) :=
  [("person_age", Json.num (mkRat cr.person_age 1)),
   ("person_income", Json.num cr.person_income),
   ("person_emp_exp", Json.num (mkRat cr.person_emp_exp 1)),
   ("loan_amnt", Json.num cr.loan_amnt),
   ("loan_int_rate", Json.num cr.loan_int_rate),
   ("loan_percent_income", Json.num cr.loan_percent_income),
   ("cb_person_cred_hist_length", Json.num (mkRat cr.cb_person_cred_hist_length 1)),
   ("person_gender", cr.person_gender),
   ("employment_type", cr.employment_type),
   ("person_home_ownership", cr.person_home_ownership),
   ("loan_intent", cr.loan_intent),
   ("account_type", cr.account_type),
   ("person_education", cr.person_education),
   ("previous_loan_defaults_on_file", cr.previous_loan_defaults_on_file),
   ("application_id", cr.application_id),
   ("timestamp", cr.timestamp)]

/-! # Theorems -/

/-- `jsonEqStr` decides equality with a string value. -/
lemma jsonEqStr_iff (j : Json) (s : String) : jsonEqStr j s = true ↔ j = Json.str s := by
  cases j <;> simp [jsonEqStr]

/-- Modelled from the spec's words (§4.2): the four-rule fallback
cascade as the specification states it, used as the refinement reference
for the source's `predict_rule_based`. -/
def rule_cascade_spec (cr : CanonicalRecord) : String × Rat :=
  if jsonEqStr cr.previous_loan_defaults_on_file "Yes"
      || decide (cr.loan_percent_income > mkRat 4 10) then
    ("REJECTED", mkRat 75 100)
  else if decide (cr.loan_percent_income < mkRat 2 10)
      && decide (cr.person_income > 50000) then
    ("APPROVED", mkRat 80 100)
  else if decide (cr.loan_amnt > 35000)
      && decide (cr.person_income < 40000) then
    ("REJECTED", mkRat 70 100)
  else
    ("APPROVED", mkRat 65 100)

lemma toRaw_lpi (cr : CanonicalRecord) :
    dictGetD (toRaw cr) "loan_percent_income" (Json.num 0)
      = Json.num cr.loan_percent_income := rfl

lemma toRaw_income (cr : CanonicalRecord) :
    dictGetD (toRaw cr) "person_income" (Json.num 0)
      = Json.num cr.person_income := rfl

lemma toRaw_amt (cr : CanonicalRecord) :
    dictGetD (toRaw cr) "loan_amnt" (Json.num 0)
      = Json.num cr.loan_amnt := rfl

lemma toRaw_prev (cr : CanonicalRecord) :
    dictGetD (toRaw cr) "previous_loan_defaults_on_file" (Json.str "No")
      = cr.previous_loan_defaults_on_file := rfl

/-- The source's rule fallback, applied to a canonical record, computes
exactly the specification's cascade. -/
lemma predict_rule_based_toRaw (cr : CanonicalRecord) :
    predict_rule_based (toRaw cr) = some (rule_cascade_spec cr) := by
  by_cases hp : cr.previous_loan_defaults_on_file = Json.str "Yes" <;>
  by_cases h1 : cr.loan_percent_income > mkRat 4 10 <;>
  by_cases h2 : cr.loan_percent_income < mkRat 2 10 <;>
  by_cases h3 : cr.person_income > 50000 <;>
  by_cases h4 : cr.loan_amnt > 35000 <;>
  by_cases h5 : cr.person_income < 40000 <;>
  simp [predict_rule_based, rule_cascade_spec, rule_three_four,
    toRaw_lpi, toRaw_income, toRaw_amt, toRaw_prev,
    jsonGt, jsonLt, toPyNum, jsonEqStr_iff, hp, h1, h2, h3, h4, h5]

/-- C1: the rule-based fallback is pure and total on canonical records:
for every `CanonicalRecord` it returns (without raising) exactly the
spec's first-match-wins cascade — rule 1 (`previous_loan_defaults_on_file
== "Yes"` or `loan_percent_income > 0.4`) gives (REJECTED, 0.75) even
when rules 2 or 3 would also match, the decision is always APPROVED or
REJECTED, and the confidence always lies in [0, 1]. -/
theorem C1_rule_fallback_cascade (cr : CanonicalRecord) :
    predict_rule_based (toRaw cr) = some (rule_cascade_spec cr) ∧
    ((rule_cascade_spec cr).1 = "APPROVED" ∨ (rule_cascade_spec cr).1 = "REJECTED") ∧
    0 ≤ (rule_cascade_spec cr).2 ∧ (rule_cascade_spec cr).2 ≤ 1 ∧
    ((cr.previous_loan_defaults_on_file = Json.str "Yes" ∨
        cr.loan_percent_income > mkRat 4 10) →
      predict_rule_based (toRaw cr) = some ("REJECTED", mkRat 75 100)) := by
  refine ⟨predict_rule_based_toRaw cr, ?_, ?_, ?_, ?_⟩
  · unfold rule_cascade_spec
    split_ifs <;> simp
  · unfold rule_cascade_spec
    split_ifs <;> decide
  · unfold rule_cascade_spec
    split_ifs <;> decide
  · intro h
    rw [predict_rule_based_toRaw cr]
    have hc : (jsonEqStr cr.previous_loan_defaults_on_file "Yes"
        || decide (cr.loan_percent_income > mkRat 4 10)) = true := by
      rcases h with h | h
      · simp [jsonEqStr_iff, h]
      · simp [h]
    unfold rule_cascade_spec
    rw [if_pos hc]

/-- Concrete instance of `C1_rule_fallback_cascade`: a record that
satisfies rule 1 (previous default on file) and also rule 2's body
(income 60000, ratio 0.15) is still REJECTED with confidence 0.75. -/
theorem C1_rule_fallback_cascade_witness :
    predict_rule_based (toRaw
      { person_age := 30, person_income := mkRat 60000 1, person_emp_exp := 5
        loan_amnt := mkRat 10000 1, loan_int_rate := mkRat 5 1
        loan_percent_income := mkRat 15 100, cb_person_cred_hist_length := 4
        person_gender := Json.str "male", employment_type := Json.str "Salaried"
        person_home_ownership := Json.str "RENT", loan_intent := Json.str "PERSONAL"
        account_type := Json.str "Savings", person_education := Json.str "Bachelor"
        previous_loan_defaults_on_file := Json.str "Yes"
        application_id := Json.str "APP-1", timestamp := Json.str "t0" })
      = some ("REJECTED", mkRat 75 100) :=
  (C1_rule_fallback_cascade _).2.2.2.2 (Or.inl rfl)

/-- C5: `predict_batch` yields the 400 client error exactly on an empty
record list (an absent or null `records` value arrives here as `[]`);
every nonempty list — including one whose every record is rejected —
yields a success response, and the embedded body never reaches the
500 server-error path. -/
theorem C5_empty_input (clf : Option Clf) (nowIso : String) (records : List Json) :
    ((∃ c m, predict_batch clf nowIso records = .clientError c m) ↔ records = []) ∧
    predict_batch clf nowIso [] = .clientError 400 "No records provided" ∧
    (records ≠ [] → ∃ b, predict_batch clf nowIso records = .success b) ∧
    (∀ m, predict_batch clf nowIso records ≠ .serverError m) := by
  cases records with
  | nil =>
    refine ⟨⟨fun _ => rfl, fun _ => ⟨400, "No records provided", rfl⟩⟩, rfl, ?_, ?_⟩
    · intro h
      exact absurd rfl h
    · intro m h
      simp [predict_batch] at h
  | cons r rs =>
    refine ⟨⟨?_, ?_⟩, rfl, fun _ => ⟨_, rfl⟩, ?_⟩
    · rintro ⟨c, m, hcm⟩
      simp [predict_batch] at hcm
    · intro h
      cases h
    · intro m h
      simp [predict_batch] at h

/-- Concrete instance of `C5_empty_input`: a one-record batch is a
success response. -/
theorem C5_empty_input_witness :
    ∃ b, predict_batch none "t0" [Json.obj []] = ApiResponse.success b :=
  (C5_empty_input none "t0" [Json.obj []]).2.2.1 (by simp)

/-- C6: a record whose processing raises is skipped and the loop
continues: the prediction list is exactly the input list filtered
through per-record processing (hence surviving records keep their
relative input order), and its length never exceeds the input length. -/
theorem C6_skip_preserves_order (clf : Option Clf) (nowIso : String)
    (records : List Json) :
    (predict_batch_loop clf nowIso records).1 =
      records.filterMap (fun rec => (decide_record clf rec).bind
        (fun dc => append_entry rec dc.1 dc.2 nowIso)) ∧
    (predict_batch_loop clf nowIso records).1.length ≤ records.length := by
  induction records with
  | nil => exact ⟨rfl, Nat.le_refl 0⟩
  | cons r rs ih =>
    obtain ⟨ih1, ih2⟩ := ih
    cases hd : decide_record clf r with
    | none =>
      refine ⟨?_, ?_⟩
      · simp [predict_batch_loop, hd, List.filterMap_cons, ih1]
      · simp only [predict_batch_loop, hd]
        exact Nat.le_trans ih2 (Nat.le_succ _)
    | some dc =>
      obtain ⟨dec, conf⟩ := dc
      cases ha : append_entry r dec conf nowIso with
      | none =>
        refine ⟨?_, ?_⟩
        · simp [predict_batch_loop, hd, ha, List.filterMap_cons, ih1]
        · simp only [predict_batch_loop, hd, ha]
          exact Nat.le_trans ih2 (Nat.le_succ _)
      | some p =>
        refine ⟨?_, ?_⟩
        · simp [predict_batch_loop, hd, ha, List.filterMap_cons, ih1]
        · simp only [predict_batch_loop, hd, ha, List.length_cons]
          exact Nat.succ_le_succ ih2

/-- A successful per-record decision implies the record is a dict: both
the ML column selection and `record.get` in the rule fallback raise on
anything else. -/
lemma decide_record_obj {clf : Option Clf} {rec : Json} {d : String × Rat}
    (h : decide_record clf rec = some d) : isObj rec = true := by
  cases clf with
  | none => cases rec <;> simp [decide_record, predict_rule_based_json, isObj] at h ⊢
  | some f =>
    cases rec <;>
      simp [decide_record, ml_predict, predict_rule_based_json, isObj] at h ⊢

/-- Appending the prediction dict succeeds on every dict record. -/
lemma append_entry_isSome {rec : Json} (h : isObj rec = true)
    (dec : String) (conf : Rat) (nowIso : String) :
    ∃ p, append_entry rec dec conf nowIso = some p := by
  cases rec <;> simp [isObj] at h <;> exact ⟨_, rfl⟩

/-- In the batch loop, the two counters always sum to the number of
appended predictions: the counters are bumped only when the decision
succeeded, and a successful decision guarantees the append succeeds. -/
lemma predict_batch_loop_counts (clf : Option Clf) (nowIso : String)
    (records : List Json) :
    (predict_batch_loop clf nowIso records).2.1
        + (predict_batch_loop clf nowIso records).2.2
      = (predict_batch_loop clf nowIso records).1.length := by
  induction records with
  | nil => rfl
  | cons r rs ih =>
    cases hd : decide_record clf r with
    | none => simpa [predict_batch_loop, hd] using ih
    | some dc =>
      obtain ⟨dec, conf⟩ := dc
      obtain ⟨p, hp⟩ := append_entry_isSome (decide_record_obj hd) dec conf nowIso
      cases hb : (dec == "APPROVED") <;>
        simp [predict_batch_loop, hd, hp, hb] <;> omega

/-- C9: in every success bundle, `total_applications` is the number of
surviving predictions, the two counters sum to it, and the approval
rate is `round(approved/total*100, 2)` when the prediction list is
nonempty and 0 when it is empty. -/
theorem C9_stats_invariants (clf : Option Clf) (nowIso : String)
    (records : List Json) (b : BatchResult)
    (h : predict_batch clf nowIso records = .success b) :
    b.stats.total_applications = b.predictions.length ∧
    b.stats.approved_count + b.stats.rejected_count = b.stats.total_applications ∧
    (b.stats.total_applications ≠ 0 →
      b.stats.approval_rate =
        pyRound2 (mkRat b.stats.approved_count b.stats.total_applications * 100)) ∧
    (b.stats.total_applications = 0 → b.stats.approval_rate = 0) := by
  cases records with
  | nil => simp [predict_batch] at h
  | cons r rs =>
    have hb : b =
        { predictions := (predict_batch_loop clf nowIso (r :: rs)).1
          stats :=
            { total_applications := (predict_batch_loop clf nowIso (r :: rs)).1.length
              approved_count := (predict_batch_loop clf nowIso (r :: rs)).2.1
              rejected_count := (predict_batch_loop clf nowIso (r :: rs)).2.2
              approval_rate :=
                if (predict_batch_loop clf nowIso (r :: rs)).1.isEmpty then 0
                else pyRound2 (mkRat (predict_batch_loop clf nowIso (r :: rs)).2.1
                  (predict_batch_loop clf nowIso (r :: rs)).1.length * 100) }
          method := if clf.isSome then "ml_model" else "rule_based" } := by
      simp [predict_batch] at h
      exact h.symm
    subst hb
    refine ⟨rfl, predict_batch_loop_counts clf nowIso (r :: rs), ?_, ?_⟩
    · intro ht
      have hne : (predict_batch_loop clf nowIso (r :: rs)).1.isEmpty = false := by
        cases hl : (predict_batch_loop clf nowIso (r :: rs)).1 with
        | nil => exact absurd (by simp [hl]) ht
        | cons x xs => simp [hl]
      simp [hne]
    · intro ht
      have he : (predict_batch_loop clf nowIso (r :: rs)).1.isEmpty = true := by
        simp only [List.isEmpty_iff]
        exact List.length_eq_zero.mp ht
      simp [he]

/-- Concrete instance of `C9_stats_invariants`: a two-record rule-based
batch keeps total = number of predictions and counts summing to it. -/
theorem C9_stats_invariants_witness :
    ∃ b, predict_batch none "t0"
        [Json.obj [("previous_loan_defaults_on_file", Json.str "Yes")],
         Json.obj []] = ApiResponse.success b ∧
      b.stats.total_applications = b.predictions.length ∧
      b.stats.approved_count + b.stats.rejected_count
        = b.stats.total_applications := by
  have h := C9_stats_invariants none "t0"
    [Json.obj [("previous_loan_defaults_on_file", Json.str "Yes")], Json.obj []]
    _ rfl
  exact ⟨_, rfl, h.1, h.2.1⟩

/-- C8: the method tag is fixed once per batch by classifier presence
(`ml_model` iff a classifier was supplied, `rule_based` iff not), and a
record on which the supplied classifier raises falls back, alone, to
the rule engine without changing the tag. -/
theorem C8_method_tag (clf : Option Clf) (nowIso : String) (records : List Json)
    (h : records ≠ []) :
    ∃ b, predict_batch clf nowIso records = .success b ∧
      (b.method = "ml_model" ↔ clf.isSome = true) ∧
      (b.method = "rule_based" ↔ clf = none) ∧
      (∀ f rec, clf = some f → ml_predict f rec = none →
        decide_record clf rec = predict_rule_based_json rec) := by
  cases records with
  | nil => exact absurd rfl h
  | cons r rs =>
    refine ⟨_, rfl, ?_, ?_, ?_⟩
    · cases clf <;> simp [predict_batch]
    · cases clf <;> simp [predict_batch]
    · rintro f rec rfl hml
      simp [decide_record, hml]

/-- Concrete instance of `C8_method_tag`: with a classifier that raises
on every call, the batch is still tagged `ml_model` while the single
record's decision equals the rule-based one. -/
theorem C8_method_tag_witness :
    ∃ b, predict_batch (some (fun _ => none)) "t0" [Json.obj []]
        = ApiResponse.success b ∧ b.method = "ml_model" := by
  obtain ⟨b, hb, hml, -, -⟩ :=
    C8_method_tag (some (fun _ => none)) "t0" [Json.obj []] (by simp)
  exact ⟨b, hb, hml.mpr rfl⟩

/-- `safe_float` sends `None`, `""`, `"null"` and every value on which
`float()` raises to the zero default. -/
lemma safe_float_zero {v : Json}
    (hv : v = Json.null ∨ v = Json.str "" ∨ v = Json.str "null" ∨ py_float v = none) :
    safe_float v = 0 := by
  rcases hv with rfl | rfl | rfl | h
  · rfl
  · rfl
  · rfl
  · simp [safe_float, h]

/-- `safe_int` sends `None`, `""`, `"null"` and every value on which
`int()` raises to the zero default. -/
lemma safe_int_zero {v : Json}
    (hv : v = Json.null ∨ v = Json.str "" ∨ v = Json.str "null" ∨ py_int v = none) :
    safe_int v = 0 := by
  rcases hv with rfl | rfl | rfl | h
  · rfl
  · rfl
  · rfl
  · simp [safe_int, h]

/-- C2 counterexample: the claim promises every one of the 16 schema
fields with its declared type, but a string-typed field that is present
with a non-string value is passed through unchanged — normalizing a
record whose `person_gender` is the number 42 leaves `person_gender` a
number, not a string. -/
theorem C2_counterexample :
    (normalize "t0" [("person_gender", Json.num 42)]).person_gender = Json.num 42 ∧
    ∀ s : String,
      (normalize "t0" [("person_gender", Json.num 42)]).person_gender ≠ Json.str s := by
  refine ⟨rfl, ?_⟩
  intro s h
  rw [show (normalize "t0" [("person_gender", Json.num 42)]).person_gender
      = Json.num 42 from rfl] at h
  exact Json.noConfusion h

/-- C2 (amended): `normalize` is total and its output always contains
all 16 schema fields; the seven numeric fields are genuinely numeric,
defaulting to zero when absent and when the present value is `None`,
`""`, `"null"`, or fails numeric parsing; the string-typed fields get
their declared defaults (`"Unknown"`, `"High School"`, `"No"`, `""`,
the normalization time) only when absent, and are passed through
unchanged — possibly not a string — when present. -/
theorem C2_normalize_defaults (now : String) (app : List (String × Json)) :
    (dictFind app "person_age" = none → (normalize now app).person_age = 0) ∧
    (∀ v, dictFind app "person_age" = some v →
      (v = Json.null ∨ v = Json.str "" ∨ v = Json.str "null" ∨ py_int v = none) →
      (normalize now app).person_age = 0) ∧
    (dictFind app "person_income" = none → (normalize now app).person_income = 0) ∧
    (∀ v, dictFind app "person_income" = some v →
      (v = Json.null ∨ v = Json.str "" ∨ v = Json.str "null" ∨ py_float v = none) →
      (normalize now app).person_income = 0) ∧
    (dictFind app "person_emp_exp" = none → (normalize now app).person_emp_exp = 0) ∧
    (∀ v, dictFind app "person_emp_exp" = some v →
      (v = Json.null ∨ v = Json.str "" ∨ v = Json.str "null" ∨ py_int v = none) →
      (normalize now app).person_emp_exp = 0) ∧
    (dictFind app "loan_amnt" = none → (normalize now app).loan_amnt = 0) ∧
    (∀ v, dictFind app "loan_amnt" = some v →
      (v = Json.null ∨ v = Json.str "" ∨ v = Json.str "null" ∨ py_float v = none) →
      (normalize now app).loan_amnt = 0) ∧
    (dictFind app "loan_int_rate" = none → (normalize now app).loan_int_rate = 0) ∧
    (∀ v, dictFind app "loan_int_rate" = some v →
      (v = Json.null ∨ v = Json.str "" ∨ v = Json.str "null" ∨ py_float v = none) →
      (normalize now app).loan_int_rate = 0) ∧
    (dictFind app "loan_percent_income" = none → (normalize now app).loan_percent_income = 0) ∧
    (∀ v, dictFind app "loan_percent_income" = some v →
      (v = Json.null ∨ v = Json.str "" ∨ v = Json.str "null" ∨ py_float v = none) →
      (normalize now app).loan_percent_income = 0) ∧
    (dictFind app "cb_person_cred_hist_length" = none → (normalize now app).cb_person_cred_hist_length = 0) ∧
    (∀ v, dictFind app "cb_person_cred_hist_length" = some v →
      (v = Json.null ∨ v = Json.str "" ∨ v = Json.str "null" ∨ py_int v = none) →
      (normalize now app).cb_person_cred_hist_length = 0) ∧
    (dictFind app "person_gender" = none → (normalize now app).person_gender = Json.str "Unknown") ∧
    (∀ v, dictFind app "person_gender" = some v → (normalize now app).person_gender = v) ∧
    (dictFind app "employment_type" = none → (normalize now app).employment_type = Json.str "Unknown") ∧
    (∀ v, dictFind app "employment_type" = some v → (normalize now app).employment_type = v) ∧
    (dictFind app "person_home_ownership" = none → (normalize now app).person_home_ownership = Json.str "Unknown") ∧
    (∀ v, dictFind app "person_home_ownership" = some v → (normalize now app).person_home_ownership = v) ∧
    (dictFind app "loan_intent" = none → (normalize now app).loan_intent = Json.str "Unknown") ∧
    (∀ v, dictFind app "loan_intent" = some v → (normalize now app).loan_intent = v) ∧
    (dictFind app "account_type" = none → (normalize now app).account_type = Json.str "Unknown") ∧
    (∀ v, dictFind app "account_type" = some v → (normalize now app).account_type = v) ∧
    (dictFind app "person_education" = none → (normalize now app).person_education = Json.str "High School") ∧
    (∀ v, dictFind app "person_education" = some v → (normalize now app).person_education = v) ∧
    (dictFind app "previous_loan_defaults_on_file" = none → (normalize now app).previous_loan_defaults_on_file = Json.str "No") ∧
    (∀ v, dictFind app "previous_loan_defaults_on_file" = some v → (normalize now app).previous_loan_defaults_on_file = v) ∧
    (dictFind app "application_id" = none → (normalize now app).application_id = Json.str "") ∧
    (∀ v, dictFind app "application_id" = some v → (normalize now app).application_id = v) ∧
    (dictFind app "timestamp" = none → (normalize now app).timestamp = Json.str now) ∧
    (∀ v, dictFind app "timestamp" = some v → (normalize now app).timestamp = v) := by
  refine ⟨?_, ?_, ?_, ?_, ?_, ?_, ?_, ?_, ?_, ?_, ?_, ?_, ?_, ?_, ?_, ?_, ?_, ?_, ?_, ?_, ?_, ?_, ?_, ?_, ?_, ?_, ?_, ?_, ?_, ?_, ?_, ?_⟩
  · intro hv
    show safe_int (dictGetD app "person_age" (Json.num 0)) = 0
    rw [dictGetD, hv]
    decide
  · intro v hv hbad
    show safe_int (dictGetD app "person_age" (Json.num 0)) = 0
    rw [dictGetD, hv]
    exact safe_int_zero hbad
  · intro hv
    show safe_float (dictGetD app "person_income" (Json.num 0)) = 0
    rw [dictGetD, hv]
    decide
  · intro v hv hbad
    show safe_float (dictGetD app "person_income" (Json.num 0)) = 0
    rw [dictGetD, hv]
    exact safe_float_zero hbad
  · intro hv
    show safe_int (dictGetD app "person_emp_exp" (Json.num 0)) = 0
    rw [dictGetD, hv]
    decide
  · intro v hv hbad
    show safe_int (dictGetD app "person_emp_exp" (Json.num 0)) = 0
    rw [dictGetD, hv]
    exact safe_int_zero hbad
  · intro hv
    show safe_float (dictGetD app "loan_amnt" (Json.num 0)) = 0
    rw [dictGetD, hv]
    decide
  · intro v hv hbad
    show safe_float (dictGetD app "loan_amnt" (Json.num 0)) = 0
    rw [dictGetD, hv]
    exact safe_float_zero hbad
  · intro hv
    show safe_float (dictGetD app "loan_int_rate" (Json.num 0)) = 0
    rw [dictGetD, hv]
    decide
  · intro v hv hbad
    show safe_float (dictGetD app "loan_int_rate" (Json.num 0)) = 0
    rw [dictGetD, hv]
    exact safe_float_zero hbad
  · intro hv
    show safe_float (dictGetD app "loan_percent_income" (Json.num 0)) = 0
    rw [dictGetD, hv]
    decide
  · intro v hv hbad
    show safe_float (dictGetD app "loan_percent_income" (Json.num 0)) = 0
    rw [dictGetD, hv]
    exact safe_float_zero hbad
  · intro hv
    show safe_int (dictGetD app "cb_person_cred_hist_length" (Json.num 0)) = 0
    rw [dictGetD, hv]
    decide
  · intro v hv hbad
    show safe_int (dictGetD app "cb_person_cred_hist_length" (Json.num 0)) = 0
    rw [dictGetD, hv]
    exact safe_int_zero hbad
  · intro hv
    show dictGetD app "person_gender" (Json.str "Unknown") = Json.str "Unknown"
    rw [dictGetD, hv]
    rfl
  · intro v hv
    show dictGetD app "person_gender" (Json.str "Unknown") = v
    rw [dictGetD, hv]
    rfl
  · intro hv
    show dictGetD app "employment_type" (Json.str "Unknown") = Json.str "Unknown"
    rw [dictGetD, hv]
    rfl
  · intro v hv
    show dictGetD app "employment_type" (Json.str "Unknown") = v
    rw [dictGetD, hv]
    rfl
  · intro hv
    show dictGetD app "person_home_ownership" (Json.str "Unknown") = Json.str "Unknown"
    rw [dictGetD, hv]
    rfl
  · intro v hv
    show dictGetD app "person_home_ownership" (Json.str "Unknown") = v
    rw [dictGetD, hv]
    rfl
  · intro hv
    show dictGetD app "loan_intent" (Json.str "Unknown") = Json.str "Unknown"
    rw [dictGetD, hv]
    rfl
  · intro v hv
    show dictGetD app "loan_intent" (Json.str "Unknown") = v
    rw [dictGetD, hv]
    rfl
  · intro hv
    show dictGetD app "account_type" (Json.str "Unknown") = Json.str "Unknown"
    rw [dictGetD, hv]
    rfl
  · intro v hv
    show dictGetD app "account_type" (Json.str "Unknown") = v
    rw [dictGetD, hv]
    rfl
  · intro hv
    show dictGetD app "person_education" (Json.str "High School") = Json.str "High School"
    rw [dictGetD, hv]
    rfl
  · intro v hv
    show dictGetD app "person_education" (Json.str "High School") = v
    rw [dictGetD, hv]
    rfl
  · intro hv
    show dictGetD app "previous_loan_defaults_on_file" (Json.str "No") = Json.str "No"
    rw [dictGetD, hv]
    rfl
  · intro v hv
    show dictGetD app "previous_loan_defaults_on_file" (Json.str "No") = v
    rw [dictGetD, hv]
    rfl
  · intro hv
    show dictGetD app "application_id" (Json.str "") = Json.str ""
    rw [dictGetD, hv]
    rfl
  · intro v hv
    show dictGetD app "application_id" (Json.str "") = v
    rw [dictGetD, hv]
    rfl
  · intro hv
    show dictGetD app "timestamp" (Json.str now) = Json.str now
    rw [dictGetD, hv]
    rfl
  · intro v hv
    show dictGetD app "timestamp" (Json.str now) = v
    rw [dictGetD, hv]
    rfl

/-- Concrete instance of `C2_normalize_defaults`: an unparseable income
becomes 0.0 and an absent gender becomes "Unknown". -/
theorem C2_normalize_defaults_witness :
    (normalize "t0" [("person_income", Json.str "abc")]).person_income = 0 ∧
    (normalize "t0" [("person_income", Json.str "abc")]).person_gender
      = Json.str "Unknown" := by
  have h := C2_normalize_defaults "t0" [("person_income", Json.str "abc")]
  exact ⟨h.2.2.2.1 (Json.str "abc") rfl (Or.inr (Or.inr (Or.inr rfl))), h.2.2.2.2.2.2.2.2.2.2.2.2.2.2.1 rfl⟩

/-- Field access on a JSON value (an object's key lookup, `none`
otherwise) — statement-side accessor for inspecting returned bundles. -/
def json_get (j : Json) (k : String) : Option Json :=
  match j with
  | .obj fs => dictFind fs k
  | _ => none

/-- A successful dict lookup means the key test succeeds. -/
lemma dictFind_any {fs : List (String × Json)} {k : String} {v : Json}
    (h : dictFind fs k = some v) : fs.any (fun p => p.1 == k) = true := by
  induction fs with
  | nil => simp [dictFind] at h
  | cons p rest ih =>
    cases hc : (p.1 == k) with
    | true => simp [List.any_cons, hc]
    | false =>
      simp only [List.any_cons, hc, Bool.false_or]
      exact ih (by simpa [dictFind, List.find?_cons, hc] using h)

/-- Inverting a successful `cap_decisions`: the capped list is the
first 20 APPROVED entries followed by the first 20 REJECTED entries. -/
lemma cap_decisions_eq {ps capped : List Json}
    (h : cap_decisions ps = some capped) :
    capped = (ps.filter (fun p => decision_is p "APPROVED")).take 20
      ++ (ps.filter (fun p => decision_is p "REJECTED")).take 20 := by
  unfold cap_decisions at h
  split_ifs at h
  exact (Option.some.inj h).symm

/-- The lookback loop never loses fetch attempts already made. -/
lemma try_days_fetches_ge (store : String → Option Json) (now : Rat)
    (nowIso : String) (l : List String) (c : CacheState) (n : Nat) :
    n ≤ (try_days store now nowIso l c n).fetches := by
  induction l generalizing c n with
  | nil => exact Nat.le_refl n
  | cons d rest ih =>
    rw [try_days]
    split
    · exact Nat.le_trans (Nat.le_succ n) (ih c (n + 1))
    · split
      · exact Nat.le_trans (Nat.le_succ n) (ih c (n + 1))
      · split
        · exact Nat.le_succ n
        · exact Nat.le_trans (Nat.le_succ n) (ih _ (n + 1))

/-- A nonempty lookback list forces at least one fetch attempt. -/
lemma try_days_fetches_pos (store : String → Option Json) (now : Rat)
    (nowIso : String) (d : String) (rest : List String) (c : CacheState)
    (n : Nat) :
    n < (try_days store now nowIso (d :: rest) c n).fetches := by
  rw [try_days]
  split
  · exact Nat.lt_of_lt_of_le (Nat.lt_succ_self n) (try_days_fetches_ge _ _ _ _ _ _)
  · split
    · exact Nat.lt_of_lt_of_le (Nat.lt_succ_self n) (try_days_fetches_ge _ _ _ _ _ _)
    · split
      · exact Nat.lt_succ_self n
      · exact Nat.lt_of_lt_of_le (Nat.lt_succ_self n) (try_days_fetches_ge _ _ _ _ _ _)

/-- The lookback loop attempts at most one fetch per remaining day. -/
lemma try_days_fetches_le (store : String → Option Json) (now : Rat)
    (nowIso : String) (l : List String) (c : CacheState) (n : Nat) :
    (try_days store now nowIso l c n).fetches ≤ n + l.length := by
  induction l generalizing c n with
  | nil => simp [try_days]
  | cons d rest ih =>
    rw [try_days]
    split
    · refine Nat.le_trans (ih c (n + 1)) ?_
      simp only [List.length_cons]
      omega
    · split
      · refine Nat.le_trans (ih c (n + 1)) ?_
        simp only [List.length_cons]
        omega
      · split
        · simp only [List.length_cons]
          omega
        · refine Nat.le_trans (ih _ (n + 1)) ?_
          simp only [List.length_cons]
          omega

/-- `cache_serve` on a fully populated cache entry, in closed form. -/
lemma cache_serve_some_some (d : Json) (t ttl now : Rat) :
    cache_serve ⟨some d, some t, ttl⟩ now =
      if now - t < ttl then (if truthy d = true then some d else none) else none := by
  by_cases h : now - t < ttl <;> simp [cache_serve, get_cached_data, h]

/-- A cache miss stays a miss at any later instant (the entry only
ages, and a falsy entry stays falsy). -/
lemma cache_serve_none_mono {c : CacheState} {now now2 : Rat}
    (h : cache_serve c now = none) (hle : now ≤ now2) :
    cache_serve c now2 = none := by
  obtain ⟨data, ts, ttl⟩ := c
  cases data with
  | none => rfl
  | some d =>
    cases ts with
    | none => rfl
    | some t =>
      rw [cache_serve_some_some] at h ⊢
      by_cases h1 : now - t < ttl
      · rw [if_pos h1] at h
        by_cases h3 : now2 - t < ttl
        · rw [if_pos h3]
          exact h
        · rw [if_neg h3]
      · by_cases h3 : now2 - t < ttl
        · exact absurd h3 (fun hc => h1 (lt_of_le_of_lt (by linarith) hc))
        · rw [if_neg h3]

/-- On a cache miss, a successful fetch of today's partition whose
computed result is an object wins immediately: one fetch attempt, the
result returned and cached. -/
lemma lpf_today_wins (store : String → Option Json) (today yesterday : String)
    (now : Rat) (nowIso : String) (c : CacheState) (data r : Json)
    (h : cache_serve c now = none) (hst : store today = some data)
    (hcr : compute_result data nowIso today = some r) (hobj : isObj r = true) :
    load_predictions_fast store today yesterday now nowIso c
      = ⟨r, ⟨some r, some now, c.ttl⟩, 1⟩ := by
  simp only [load_predictions_fast, h]
  rw [try_days]
  simp [hst, hcr, hobj]

/-- On a cache miss with today's fetch failing, a successful fetch of
yesterday's partition whose computed result is an object wins on the
second attempt. -/
lemma lpf_yesterday_wins (store : String → Option Json) (today yesterday : String)
    (now : Rat) (nowIso : String) (c : CacheState) (data r : Json)
    (h : cache_serve c now = none) (ht : store today = none)
    (hy : store yesterday = some data)
    (hcr : compute_result data nowIso yesterday = some r) (hobj : isObj r = true) :
    load_predictions_fast store today yesterday now nowIso c
      = ⟨r, ⟨some r, some now, c.ttl⟩, 2⟩ := by
  simp only [load_predictions_fast, h]
  rw [try_days]
  simp only [ht]
  rw [try_days]
  simp [hy, hcr, hobj]

/-- C4 counterexample: the claim as stated — a cache entry that exists
and is fresh is returned with no external fetch — fails on a falsy
cached bundle: a cached empty JSON object passes `get_cached_data` but
flunks the `if cached:` truthiness test, so the read refetches (two
attempts here) and returns the empty bundle instead of the cached one. -/
theorem C4_counterexample :
    get_cached_data ⟨some (Json.obj []), some (mkRat 0 1), mkRat 300 1⟩ (mkRat 1 1)
      = some (Json.obj []) ∧
    (load_predictions_fast (fun _ => none) "d0" "d1" (mkRat 1 1) "t1"
      ⟨some (Json.obj []), some (mkRat 0 1), mkRat 300 1⟩).fetches = 2 ∧
    (load_predictions_fast (fun _ => none) "d0" "d1" (mkRat 1 1) "t1"
      ⟨some (Json.obj []), some (mkRat 0 1), mkRat 300 1⟩).result ≠ Json.obj [] := by
  refine ⟨rfl, rfl, ?_⟩
  intro h
  exact List.noConfusion (Json.obj.inj h)

/-- C4 (amended): a fresh cache entry holding a truthy bundle is served
unchanged with no fetch; on a miss exactly one refill sequence of one or
two fetch attempts runs, today's partition first, and a today's fetch
yielding a parseable object-shaped result wins with a single attempt and
no back-dating (whatever yesterday's partition holds); a second read
within the TTL of such a refill serves the identical bundle with no
further fetch, the refilled bundle being truthy. -/
theorem C4_cache_ttl (store store2 : String → Option Json)
    (today yesterday t2 y2 : String) (now now2 : Rat) (nowIso iso2 : String)
    (c : CacheState) :
    (∀ d, cache_serve c now = some d →
      load_predictions_fast store today yesterday now nowIso c = ⟨d, c, 0⟩) ∧
    (cache_serve c now = none →
      1 ≤ (load_predictions_fast store today yesterday now nowIso c).fetches ∧
      (load_predictions_fast store today yesterday now nowIso c).fetches ≤ 2) ∧
    (∀ data r, cache_serve c now = none → store today = some data →
      compute_result data nowIso today = some r → isObj r = true →
      load_predictions_fast store today yesterday now nowIso c
        = ⟨r, ⟨some r, some now, c.ttl⟩, 1⟩) ∧
    (∀ data r, cache_serve c now = none → store today = some data →
      compute_result data nowIso today = some r → isObj r = true →
      truthy r = true → now2 - now < c.ttl →
      load_predictions_fast store2 t2 y2 now2 iso2
          (load_predictions_fast store today yesterday now nowIso c).cache
        = ⟨r, ⟨some r, some now, c.ttl⟩, 0⟩) := by
  refine ⟨?_, ?_, ?_, ?_⟩
  · intro d h
    simp [load_predictions_fast, h]
  · intro h
    simp only [load_predictions_fast, h]
    refine ⟨try_days_fetches_pos store now nowIso today [yesterday] c 0, ?_⟩
    simpa using try_days_fetches_le store now nowIso [today, yesterday] c 0
  · intro data r h hst hcr hobj
    exact lpf_today_wins store today yesterday now nowIso c data r h hst hcr hobj
  · intro data r h hst hcr hobj htr httl
    rw [lpf_today_wins store today yesterday now nowIso c data r h hst hcr hobj]
    have hserve : cache_serve (⟨some r, some now, c.ttl⟩ : CacheState) now2 = some r := by
      rw [cache_serve_some_some, if_pos httl, if_pos htr]
    simp [load_predictions_fast, hserve]

/-- Concrete instance of `C4_cache_ttl`: a fresh truthy cache entry is
served unchanged with zero fetch attempts. -/
theorem C4_cache_ttl_witness :
    load_predictions_fast (fun _ => none) "d0" "d1" (mkRat 10 1) "t1"
        ⟨some (Json.obj [("a", Json.num 1)]), some (mkRat 0 1), mkRat 300 1⟩
      = ⟨Json.obj [("a", Json.num 1)],
          ⟨some (Json.obj [("a", Json.num 1)]), some (mkRat 0 1), mkRat 300 1⟩, 0⟩ :=
  (C4_cache_ttl (fun _ => none) (fun _ => none) "d0" "d1" "x" "y"
    (mkRat 10 1) (mkRat 0 1) "t1" "t2" _).1 _ rfl

/-- C10: a fetched document that parses to a JSON object with no
`predictions` key is cached and returned wholesale — no filtering,
capping, reshaping or defaulting of its fields. -/
theorem C10_wholesale_document (store : String → Option Json)
    (today yesterday : String) (now : Rat) (nowIso : String) (c : CacheState)
    (fs : List (String × Json))
    (hmiss : cache_serve c now = none)
    (hst : store today = some (Json.obj fs))
    (hkey : fs.any (fun p => p.1 == "predictions") = false) :
    load_predictions_fast store today yesterday now nowIso c
      = ⟨Json.obj fs, ⟨some (Json.obj fs), some now, c.ttl⟩, 1⟩ := by
  have hcr : compute_result (Json.obj fs) nowIso today = some (Json.obj fs) := by
    simp [compute_result, has_predictions_key, hkey]
  exact lpf_today_wins store today yesterday now nowIso c _ _ hmiss hst hcr rfl

/-- Concrete instance of `C10_wholesale_document`: a document holding
only a stray numeric `stats` field comes back verbatim and cached, with
none of the capped-bundle fields added. -/
theorem C10_wholesale_document_witness :
    load_predictions_fast
        (fun d => if d == "d0" then some (Json.obj [("stats", Json.num 7)]) else none)
        "d0" "d1" (mkRat 0 1) "t1" ⟨none, none, mkRat 300 1⟩
      = ⟨Json.obj [("stats", Json.num 7)],
          ⟨some (Json.obj [("stats", Json.num 7)]), some (mkRat 0 1), mkRat 300 1⟩, 1⟩ :=
  C10_wholesale_document
    (fun d => if d == "d0" then some (Json.obj [("stats", Json.num 7)]) else none)
    "d0" "d1" (mkRat 0 1) "t1" ⟨none, none, mkRat 300 1⟩
    [("stats", Json.num 7)] rfl rfl rfl

/-- C7: when both lookback fetches fail, the read returns the empty
bundle — empty prediction list, all counts and rates 0 — as a normal
result, leaves the cache untouched, and any later read (cache still
unpopulated) goes back out to fetch instead of serving a cached empty
result. -/
theorem C7_empty_bundle_on_failure (store store2 : String → Option Json)
    (today yesterday t2 y2 : String) (now now2 : Rat) (nowIso iso2 : String)
    (c : CacheState)
    (hmiss : cache_serve c now = none)
    (ht : store today = none) (hy : store yesterday = none)
    (hle : now ≤ now2) :
    load_predictions_fast store today yesterday now nowIso c
      = ⟨empty_bundle nowIso, c, 2⟩ ∧
    json_get (empty_bundle nowIso) "predictions" = some (Json.arr []) ∧
    json_get (empty_bundle nowIso) "total_applications" = some (Json.num 0) ∧
    json_get (empty_bundle nowIso) "approved_count" = some (Json.num 0) ∧
    json_get (empty_bundle nowIso) "rejected_count" = some (Json.num 0) ∧
    json_get (empty_bundle nowIso) "approval_rate" = some (Json.num 0) ∧
    1 ≤ (load_predictions_fast store2 t2 y2 now2 iso2 c).fetches := by
  refine ⟨?_, rfl, rfl, rfl, rfl, rfl, ?_⟩
  · simp only [load_predictions_fast, hmiss]
    rw [try_days]
    simp only [ht]
    rw [try_days]
    simp only [hy]
    rw [try_days]
  · have h2 := cache_serve_none_mono hmiss hle
    simp only [load_predictions_fast, h2]
    exact try_days_fetches_pos store2 now2 iso2 t2 [y2] c 0

/-- Concrete instance of `C7_empty_bundle_on_failure`: with an empty
store, the read returns the empty bundle and leaves the cache empty. -/
theorem C7_empty_bundle_on_failure_witness :
    load_predictions_fast (fun _ => none) "d0" "d1" (mkRat 0 1) "t1"
        ⟨none, none, mkRat 300 1⟩
      = ⟨empty_bundle "t1", ⟨none, none, mkRat 300 1⟩, 2⟩ :=
  (C7_empty_bundle_on_failure (fun _ => none) (fun _ => none) "d0" "d1" "d0" "d1"
    (mkRat 0 1) (mkRat 5 1) "t1" "t2" ⟨none, none, mkRat 300 1⟩
    rfl rfl rfl (by decide)).1

/-- The reshaped bundle built at ml-api-ec2.py lines 186-194, with the
capped prediction list and the copied stats fields. -/
def capped_bundle (capped : List Json) (ta ac rc ar : Json)
    (nowIso date : String) : Json :=
  Json.obj
    [("predictions", Json.arr capped),
     ("total_applications", ta),
     ("approved_count", ac),
     ("rejected_count", rc),
     ("approval_rate", ar),
     ("timestamp", Json.str nowIso),
     ("date", Json.str date)]

/-- C3: on a cache miss whose fetch succeeds and parses as a bundle
with a `predictions` key, the returned (and cached) bundle's prediction
list is the first 20 APPROVED entries followed by the first 20 REJECTED
entries of the persisted list, each group in persisted order — hence at
most 20 of each, APPROVED before REJECTED — while the aggregate counts
are copied from the persisted `stats`, uncapped. -/
theorem C3_capped_bundle (store : String → Option Json)
    (today yesterday d : String) (now : Rat) (nowIso : String) (c : CacheState)
    (fs : List (String × Json)) (pv : Json) (ps capped : List Json)
    (ta ac rc ar : Json)
    (hmiss : cache_serve c now = none)
    (hday : (store today = some (Json.obj fs) ∧ d = today) ∨
      (store today = none ∧ store yesterday = some (Json.obj fs) ∧ d = yesterday))
    (hpv : dictFind fs "predictions" = some pv)
    (hps : iter_elems pv = some ps)
    (hcap : cap_decisions ps = some capped)
    (hta : stats_get fs "total_applications" = some ta)
    (hac : stats_get fs "approved_count" = some ac)
    (hrc : stats_get fs "rejected_count" = some rc)
    (har : stats_get fs "approval_rate" = some ar) :
    compute_result (Json.obj fs) nowIso d
      = some (capped_bundle capped ta ac rc ar nowIso d) ∧
    (load_predictions_fast store today yesterday now nowIso c).result
      = capped_bundle capped ta ac rc ar nowIso d ∧
    (load_predictions_fast store today yesterday now nowIso c).cache.data
      = some (capped_bundle capped ta ac rc ar nowIso d) ∧
    capped = (ps.filter (fun p => decision_is p "APPROVED")).take 20
      ++ (ps.filter (fun p => decision_is p "REJECTED")).take 20 ∧
    json_get (capped_bundle capped ta ac rc ar nowIso d) "predictions"
      = some (Json.arr capped) ∧
    json_get (capped_bundle capped ta ac rc ar nowIso d) "total_applications"
      = stats_get fs "total_applications" ∧
    json_get (capped_bundle capped ta ac rc ar nowIso d) "approved_count"
      = stats_get fs "approved_count" ∧
    json_get (capped_bundle capped ta ac rc ar nowIso d) "rejected_count"
      = stats_get fs "rejected_count" ∧
    json_get (capped_bundle capped ta ac rc ar nowIso d) "approval_rate"
      = stats_get fs "approval_rate" ∧
    ((ps.filter (fun p => decision_is p "APPROVED")).take 20).length ≤ 20 ∧
    ((ps.filter (fun p => decision_is p "REJECTED")).take 20).length ≤ 20 ∧
    (∀ p ∈ (ps.filter (fun p => decision_is p "APPROVED")).take 20,
      decision_is p "APPROVED" = true) ∧
    (∀ p ∈ (ps.filter (fun p => decision_is p "REJECTED")).take 20,
      decision_is p "REJECTED" = true) := by
  have hkey : has_predictions_key (Json.obj fs) = some true := by
    simp only [has_predictions_key]
    rw [dictFind_any hpv]
  have hcr : compute_result (Json.obj fs) nowIso d
      = some (capped_bundle capped ta ac rc ar nowIso d) := by
    simp only [compute_result, hkey, hpv, hps, hcap, hta, hac, hrc, har,
      capped_bundle]
  have hlpf : (load_predictions_fast store today yesterday now nowIso c).result
        = capped_bundle capped ta ac rc ar nowIso d ∧
      (load_predictions_fast store today yesterday now nowIso c).cache.data
        = some (capped_bundle capped ta ac rc ar nowIso d) := by
    rcases hday with ⟨hst, rfl⟩ | ⟨ht, hy, rfl⟩
    · rw [lpf_today_wins _ _ _ _ _ _ _ _ hmiss hst hcr rfl]
      exact ⟨rfl, rfl⟩
    · rw [lpf_yesterday_wins _ _ _ _ _ _ _ _ hmiss ht hy hcr rfl]
      exact ⟨rfl, rfl⟩
  refine ⟨hcr, hlpf.1, hlpf.2, cap_decisions_eq hcap, rfl,
    by rw [hta]; rfl, by rw [hac]; rfl, by rw [hrc]; rfl, by rw [har]; rfl,
    ?_, ?_, ?_, ?_⟩
  · rw [List.length_take]
    exact Nat.min_le_left _ _
  · rw [List.length_take]
    exact Nat.min_le_left _ _
  · intro p hp
    exact (List.mem_filter.mp (List.take_subset _ _ hp)).2
  · intro p hp
    exact (List.mem_filter.mp (List.take_subset _ _ hp)).2

/-- An APPROVED entry of the concrete persisted bundle used below. -/
def c3_aobj : Json := Json.obj [("decision", Json.str "APPROVED")]

/-- A REJECTED entry of the concrete persisted bundle used below. -/
def c3_robj1 : Json :=
  Json.obj [("decision", Json.str "REJECTED"), ("application_id", Json.str "r1")]

/-- A second REJECTED entry of the concrete persisted bundle. -/
def c3_robj2 : Json :=
  Json.obj [("decision", Json.str "REJECTED"), ("application_id", Json.str "r2")]

/-- A concrete persisted bundle: three predictions (REJECTED, APPROVED,
REJECTED in persisted order) and uncapped stats. -/
def c3_doc : List (String × Json) :=
  [("predictions", Json.arr [c3_robj1, c3_aobj, c3_robj2]),
   ("stats", Json.obj
     [("total_applications", Json.num 3), ("approved_count", Json.num 1),
      ("rejected_count", Json.num 2), ("approval_rate", Json.num (mkRat 100 3))])]

/-- A store holding `c3_doc` under today's partition only. -/
def c3_store : String → Option Json :=
  fun x => if x == "d0" then some (Json.obj c3_doc) else none

/-- Concrete instance of `C3_capped_bundle`: the served bundle reorders
the three persisted predictions APPROVED-first and copies the stats. -/
theorem C3_capped_bundle_witness :
    (load_predictions_fast c3_store "d0" "d1" (mkRat 0 1) "t1"
        ⟨none, none, mkRat 300 1⟩).result
      = capped_bundle [c3_aobj, c3_robj1, c3_robj2] (Json.num 3) (Json.num 1)
          (Json.num 2) (Json.num (mkRat 100 3)) "t1" "d0" :=
  (C3_capped_bundle c3_store "d0" "d1" "d0" (mkRat 0 1) "t1"
    ⟨none, none, mkRat 300 1⟩ c3_doc (Json.arr [c3_robj1, c3_aobj, c3_robj2])
    [c3_robj1, c3_aobj, c3_robj2] [c3_aobj, c3_robj1, c3_robj2]
    (Json.num 3) (Json.num 1) (Json.num 2) (Json.num (mkRat 100 3))
    rfl (Or.inl ⟨rfl, rfl⟩) rfl rfl rfl rfl rfl rfl rfl).2.1

end Loan
